import Mathlib

/-!
Verification development for the ContentService repository: a shallow
embedding of the cache store adapter, configuration loader, trending
aggregator, data quality monitor, and the route-layer error mappings,
together with theorems settling the specification claims.
-/

set_option linter.unusedVariables false

namespace ContentService

/-! ## Cache store adapter (src/unnamed/part_003)

The adapter works over a Redis string store.  We embed the store as an
association list from keys to entries; an entry holds the stored payload
string and its optional expiry in seconds.  `JSON.parse`/`JSON.stringify`
are external library calls, so `getCachedJson`/`setCachedJson` are
parameterised over them, exactly as the TypeScript functions are generic
in the value type `T`.  A TypeScript value of type `T | null` is embedded
as `Option T` (with `none` standing for `null`). -/

structure CacheEntry where
  payload : String
  expirySeconds : Option Int
  deriving DecidableEq, Repr

/-- A Redis string store: an association list from keys to entries. -/
abbrev CacheStore := List (String × CacheEntry)

/-- Lookup of a key in the store (`redis.get` also returning the expiry). -/
def storeGet : CacheStore → String → Option CacheEntry
  | [], _ => none
  | (k, e) :: rest, key => if k = key then some e else storeGet rest key

/-- Deletion of a key (`redis.del`). -/
def storeDel : CacheStore → String → CacheStore
  | [], _ => []
  | (k, e) :: rest, key =>
      if k = key then storeDel rest key else (k, e) :: storeDel rest key

/-- Overwriting insertion of a key (`redis.set`). -/
def storeSet (s : CacheStore) (key : String) (e : CacheEntry) : CacheStore :=
  (key, e) :: storeDel s key

/-- Embedding of `getCachedJson` from src/unnamed/part_003 lines 50-64.
`parse` models the external `JSON.parse` for the value type `T`: outer
`none` is a thrown parse error, `some none` is a successfully parsed JSON
`null`, `some (some t)` a parsed value.  The TypeScript guard
`if (!payload)` is true both for a missing key (`null`) and for the empty
string.  The function is total: a parse failure is absorbed (the key is
deleted and `none` returned), never surfaced to the caller. -/
def getCachedJson {T : Type} (parse : String → Option (Option T))
    (s : CacheStore) (key : String) : Option T × CacheStore :=
  match storeGet s key with
  | none => (none, s)
  | some entry =>
      if entry.payload = "" then (none, s)
      else
        match parse entry.payload with
        | some v => (v, s)
        | none => (none, storeDel s key)

/-- Embedding of `setCachedJson` from src/unnamed/part_003 lines 66-78.
`stringify` models the external `JSON.stringify`.  `ttlSeconds > 0`
stores with that expiry (`redis.set key payload "EX" ttlSeconds`);
otherwise the entry is stored with no expiry. -/
def setCachedJson {T : Type} (stringify : Option T → String)
    (s : CacheStore) (key : String) (value : Option T) (ttlSeconds : Int) :
    CacheStore :=
  let payload := stringify value
  if ttlSeconds > 0 then storeSet s key ⟨payload, some ttlSeconds⟩
  else storeSet s key ⟨payload, none⟩

/-- Concrete toy codec used to exercise the generic adapter: serialises
`Option Nat` the way `JSON.stringify` serialises `number | null`. -/
def demoStringify : Option Nat → String
  | none => "null"
  | some n => toString n

/-- Concrete toy codec used to exercise the generic adapter: parses what
`demoStringify` produces and fails on anything else. -/
def demoParse (s : String) : Option (Option Nat) :=
  if s = "null" then some none else (s.toNat?).map some

/-! ## Configuration loader (src/unnamed/part_002, src/src/config/index.ts)

`loadConfig` memoises the parsed environment in a module-level
`cachedConfig` variable.  The zod `envSchema.safeParse` is an external
call, so it is a parameter; the embedding threads the mutable
`cachedConfig` cell explicitly: each operation returns the result
together with the new cell contents.  A thrown error is an
`Except.error` carrying the exact message the source builds. -/

structure ZodIssue where
  path : List String
  message : String
  deriving DecidableEq, Repr

/-- The error message `loadConfig` throws, built exactly as in the source:
each issue renders as `path.join(".") ++ ": " ++ message`, joined by
`"; "`, behind the fixed leader. -/
def formatConfigError (issues : List ZodIssue) : String :=
  "ContentService configuration invalid: " ++
    String.intercalate "; "
      (issues.map (fun i => String.intercalate "." i.path ++ ": " ++ i.message))

/-- Embedding of `loadConfig` from src/unnamed/part_002 lines 49-62.
`safeParse` models `envSchema.safeParse`; `cachedConfig` is the memo
cell; the result pairs the returned (or thrown) value with the new cell
contents. -/
def loadConfig {Env : Type}
    (safeParse : List (String × String) → Except (List ZodIssue) Env)
    (cachedConfig : Option Env) (processEnv : List (String × String)) :
    Except String Env × Option Env :=
  match cachedConfig with
  | some c => (Except.ok c, some c)
  | none =>
      match safeParse processEnv with
      | Except.ok parsed => (Except.ok parsed, some parsed)
      | Except.error issues => (Except.error (formatConfigError issues), none)

/-- Embedding of `resetConfigCache` from src/unnamed/part_002 lines 64-66. -/
def resetConfigCache {Env : Type} (cachedConfig : Option Env) : Option Env :=
  none

/-! ## Trending aggregator

The `TrendingService` implementation is not part of the provided source
tree (only its callers in the route files are), so the aggregator is
modelled from the spec (section 4.2): a ranked associative structure of
content id to numeric score, a side table of rating aggregates, deltas
applied by the store's increment operation, and an ordered top-N view
sorted by score descending with ties broken by content id ascending. -/

/-- Modelled from the spec: an engagement-metrics event as consumed by
`applyMetrics` — a content id plus signal deltas (views, likes,
completion) and an optional rating value (§4.2). -/
structure MetricsEvent where
  contentId : String
  views : Nat
  likes : Nat
  completions : Nat
  rating : Option Rat
  deriving DecidableEq, Repr

/-- Modelled from the spec: views contribute a small positive increment. -/
def viewWeight : Rat := 1

/-- Modelled from the spec: likes contribute a larger increment than views. -/
def likeWeight : Rat := 4

/-- Modelled from the spec: completions contribute a positive increment. -/
def completionWeight : Rat := 2

/-- Modelled from the spec: a new rating nudges the score. -/
def ratingNudgeWeight : Rat := 1 / 2

/-- Modelled from the spec: the deterministic weighted score delta of one
event (§4.2, "increment the content's score ... by a deterministic
weighted function of the deltas"). -/
def eventDelta (e : MetricsEvent) : Rat :=
  viewWeight * e.views + likeWeight * e.likes + completionWeight * e.completions +
    (match e.rating with
     | none => 0
     | some r => ratingNudgeWeight * r)

/-- The store's atomic score increment (`ZINCRBY`): adds `d` to the score
at `id`, creating the member with score `d` when absent. -/
def zincr : List (String × Rat) → String → Rat → List (String × Rat)
  | [], id, d => [(id, d)]
  | (k, v) :: rest, id, d =>
      if k = id then (k, v + d) :: rest else (k, v) :: zincr rest id d

/-- The rating-aggregate increment: adds the rating value to the sum and
bumps the count at `id`, creating the aggregate `(r, 1)` when absent. -/
def rincr : List (String × Rat × Nat) → String → Rat → List (String × Rat × Nat)
  | [], id, r => [(id, (r, 1))]
  | (k, a) :: rest, id, r =>
      if k = id then (k, (a.1 + r, a.2 + 1)) :: rest else (k, a) :: rincr rest id r

/-- Modelled from the spec: the aggregator's shared-store state — a ranked
set of content id to score plus a side table of rating aggregates (§3,
TrendingEntry and RatingAggregate). -/
structure TrendingState where
  scores : List (String × Rat)
  ratings : List (String × Rat × Nat)
  deriving DecidableEq, Repr

/-- Score lookup in the ranked structure, defaulting to `0` for absent
members. -/
def lookupScore : List (String × Rat) → String → Rat
  | [], _ => 0
  | (k, v) :: rest, id => if k = id then v else lookupScore rest id

/-- Modelled from the spec: applying one metrics event — the score delta
goes through the store's increment operation, and a rating value also
updates the rating aggregate (§4.2). -/
def applyEvent (s : TrendingState) (e : MetricsEvent) : TrendingState :=
  { scores := zincr s.scores e.contentId (eventDelta e)
    ratings :=
      match e.rating with
      | none => s.ratings
      | some r => rincr s.ratings e.contentId r }

/-- Modelled from the spec: `applyMetrics(events)` applies each event's
delta in order; the aggregator performs no event deduplication (§8). -/
def applyMetrics (s : TrendingState) (events : List MetricsEvent) : TrendingState :=
  events.foldl applyEvent s

/-- Modelled from the spec: `scoreFor(contentId)` — point lookup; absent
entries resolve to score 0, never an error (§4.2). -/
def scoreFor (s : TrendingState) (id : String) : Rat :=
  lookupScore s.scores id

/-- Modelled from the spec: `ratingFor(contentId)` — point lookup; absent
entries resolve to the aggregate `(0, 0)` (§4.2). -/
def ratingFor (s : TrendingState) (id : String) : Rat × Nat :=
  match s.ratings.find? (fun p => p.1 == id) with
  | none => (0, 0)
  | some p => p.2

/-- The ranking comparator of `topTrending`: higher score first, ties
broken by content id ascending. -/
def trendLE (a b : String × Rat) : Bool :=
  decide (b.2 < a.2) || (decide (a.2 = b.2) && decide (a.1 ≤ b.1))

/-- Modelled from the spec: the ordered entries behind `topTrending` —
the ranked set sorted by score descending with ties by content id
ascending, truncated to `limit` (§4.2). -/
def topTrendingEntries (limit : Nat) (entries : List (String × Rat)) :
    List (String × Rat) :=
  (entries.mergeSort trendLE).take limit

/-- Modelled from the spec: `topTrending(limit)` returns the
highest-scored content ids in that order (§4.2). -/
def topTrending (limit : Nat) (entries : List (String × Rat)) : List String :=
  (topTrendingEntries limit entries).map Prod.fst

/-- The strict pairwise ordering `topTrending` promises: strictly higher
score first, and ascending content id between equal scores. -/
def TrendRank (a b : String × Rat) : Prop :=
  b.2 < a.2 ∨ (a.2 = b.2 ∧ a.1 < b.1)

/-! ## Data quality monitor and viewer catalog orchestrator

The `DataQualityMonitor` and `ViewerCatalogService` implementations are
not part of the provided source tree (only the route files that construct
and call them are), so they are modelled from the spec (§4.3, §4.5): a
stateless validator over composed feed items that fail-fast raises a
typed `CatalogConsistencyError` wrapping the first `QualityIssue` found,
and orchestrator queries that return an explicit not-found sentinel.
The route handlers themselves are embedded from the source
(src/unnamed/part_000). -/

/-- Modelled from the spec: the known issue kinds of a `QualityIssue`
(§3). -/
inductive QualityIssueKind
  | missingSeriesRef
  | episodeMissingAsset
  | seriesZeroEpisodes
  | malformedTimestamp
  deriving DecidableEq, Repr

/-- The attribution carried by a `QualityIssue`; the feed route handler
reads `issue.attributes.episodeId` (src/unnamed/part_000 line 73). -/
structure QualityIssueAttributes where
  episodeId : Option String
  seriesId : Option String
  deriving DecidableEq, Repr

/-- Modelled from the spec: a tagged issue kind with the offending
content/episode id (§3). -/
structure QualityIssue where
  kind : QualityIssueKind
  attributes : QualityIssueAttributes
  deriving DecidableEq, Repr

/-- The typed error raised on a data-quality violation, wrapping exactly
one `QualityIssue` (spec §4.3; caught in src/unnamed/part_000 line 69). -/
structure CatalogConsistencyError where
  issue : QualityIssue
  deriving DecidableEq, Repr

/-- Modelled from the spec: a denormalized feed item — the fields the
monitor's referential checks inspect (§3, §4.3). -/
structure FeedItem where
  contentId : String
  seriesId : Option String
  playable : Bool
  streamingAssetId : Option String
  deriving DecidableEq, Repr

/-- Modelled from the spec: the playable-asset check — every episode
exposed as playable must have a non-null streaming asset reference
(§4.3). -/
def feedItemAssetIssue (item : FeedItem) : Option QualityIssue :=
  if item.playable && item.streamingAssetId.isNone then
    some ⟨.episodeMissingAsset, ⟨some item.contentId, item.seriesId⟩⟩
  else none

/-- Modelled from the spec: the per-item checks — a series reference must
resolve to a known series, then the playable-asset check (§4.3). -/
def feedItemIssue (knownSeries : List String) (item : FeedItem) :
    Option QualityIssue :=
  match item.seriesId with
  | some sid =>
      if sid ∈ knownSeries then feedItemAssetIssue item
      else some ⟨.missingSeriesRef, ⟨some item.contentId, some sid⟩⟩
  | none => feedItemAssetIssue item

/-- Modelled from the spec: the monitor's feed validation — the first
violation found is returned, fail-fast, not an aggregate report (§4.3). -/
def validateFeed (knownSeries : List String) (items : List FeedItem) :
    Option QualityIssue :=
  items.findSome? (feedItemIssue knownSeries)

/-- The feed payload the orchestrator returns, with its cache-hit flag
(spec §4.5). -/
structure FeedResult where
  items : List FeedItem
  nextCursor : Option String
  fromCache : Bool
  deriving DecidableEq, Repr

/-- Modelled from the spec: `getFeed` on the cache-miss path — the
composed items are validated, a violation raises `CatalogConsistencyError`
wrapping the issue, otherwise the feed is returned (§4.5, §4.3). -/
def getFeed (knownSeries : List String) (fetched : List FeedItem)
    (nextCursor : Option String) : Except CatalogConsistencyError FeedResult :=
  match validateFeed knownSeries fetched with
  | some issue => Except.error ⟨issue⟩
  | none => Except.ok ⟨fetched, nextCursor, false⟩

/-- A route reply: HTTP status, message, and (for quality failures) the
surfaced issue kind. -/
structure Reply where
  status : Nat
  message : Option String
  issue : Option QualityIssueKind
  deriving DecidableEq, Repr

/-- Embedding of the feed handler's outcome mapping from
src/unnamed/part_000 lines 55-87: a successful `getFeed` is a 200, a
`CatalogConsistencyError` is logged and mapped to a 500 whose body
carries `message: "Catalog data quality issue"` and the issue kind.
(Any other thrown error is re-raised by the source and is outside this
embedding.) -/
def getFeedHandler (outcome : Except CatalogConsistencyError FeedResult) :
    Reply :=
  match outcome with
  | Except.ok _ => ⟨200, none, none⟩
  | Except.error e => ⟨500, some "Catalog data quality issue", some e.issue.kind⟩

/-- Modelled from the spec: the series metadata resolved from a slug
(§3, §4.5). -/
structure SeriesSummary where
  slug : String
  title : String
  deriving DecidableEq, Repr

/-- Modelled from the spec: `getSeriesDetail({slug})` — returns the
explicit not-found sentinel (`none`), not an error, when the slug does
not resolve (§4.5). -/
def getSeriesDetail (catalog : List SeriesSummary) (slug : String) :
    Option (SeriesSummary × Bool) :=
  (catalog.find? (fun s => s.slug == slug)).map (fun s => (s, false))

/-- Modelled from the spec: `getRelatedSeries({slug, limit})` — the
not-found sentinel when the slug does not resolve, otherwise related
series capped at the caller's limit (§4.5). -/
def getRelatedSeries (catalog : List SeriesSummary) (slug : String)
    (limit : Nat) : Option (List SeriesSummary × Bool) :=
  match catalog.find? (fun s => s.slug == slug) with
  | none => none
  | some s => some ((catalog.filter (fun t => t.slug != s.slug)).take limit, false)

/-- Embedding of the series-detail handler's sentinel mapping from
src/unnamed/part_000 lines 99-117: the not-found sentinel becomes a 404
with message "Series not found", a resolved series a 200. -/
def seriesDetailHandler (result : Option (SeriesSummary × Bool)) : Reply :=
  match result with
  | none => ⟨404, some "Series not found", none⟩
  | some _ => ⟨200, none, none⟩

/-- Embedding of the related-series handler's sentinel mapping from
src/unnamed/part_000 lines 150-168: the not-found sentinel becomes a 404
with message "Series not found", a resolved result a 200. -/
def relatedSeriesHandler (result : Option (List SeriesSummary × Bool)) : Reply :=
  match result with
  | none => ⟨404, some "Series not found", none⟩
  | some _ => ⟨200, none, none⟩

/-! ## Internal route error mapping (src/src/routes/internal.ts)

The system-of-record `CatalogService` raises `CatalogServiceError`s
carrying a domain error code; the internal route handlers map those to
HTTP statuses in their catch blocks.  The handlers are embedded from the
source over the outcome of the service call. -/

/-- The domain error codes the internal routes inspect
(src/src/routes/internal.ts lines 73, 120, 123). -/
inductive CatalogErrorCode
  | NOT_FOUND
  | FAILED_PRECONDITION
  | INTERNAL
  deriving DecidableEq, Repr

/-- A `CatalogServiceError`: a tagged domain error with a message. -/
structure CatalogServiceError where
  code : CatalogErrorCode
  message : String
  deriving DecidableEq, Repr

/-- The outcome of a system-of-record call as the route's try/catch sees
it: success, a thrown `CatalogServiceError`, or any other thrown error. -/
inductive ServiceCallOutcome
  | ok
  | catalogError (e : CatalogServiceError)
  | unexpectedError
  deriving DecidableEq, Repr

/-- Embedding of the register-episode-asset handler's catch mapping from
src/src/routes/internal.ts lines 109-135: `NOT_FOUND` maps to 404 with
the error's message, `FAILED_PRECONDITION` to 412 with the error's
message, anything else to 500. -/
def registerEpisodeAssetHandler (outcome : ServiceCallOutcome) : Reply :=
  match outcome with
  | .ok => ⟨200, none, none⟩
  | .catalogError e =>
      if e.code = .NOT_FOUND then ⟨404, some e.message, none⟩
      else if e.code = .FAILED_PRECONDITION then ⟨412, some e.message, none⟩
      else ⟨500, some "Unable to register episode asset", none⟩
  | .unexpectedError => ⟨500, some "Unable to register episode asset", none⟩

/-- Embedding of the get-category handler's catch mapping from
src/src/routes/internal.ts lines 65-83: only `NOT_FOUND` is mapped to a
404; every other failure — `FAILED_PRECONDITION` included — falls
through to a 500 "Unable to fetch category". -/
def getCategoryHandler (outcome : ServiceCallOutcome) : Reply :=
  match outcome with
  | .ok => ⟨200, none, none⟩
  | .catalogError e =>
      if e.code = .NOT_FOUND then ⟨404, some "Category not found", none⟩
      else ⟨500, some "Unable to fetch category", none⟩
  | .unexpectedError => ⟨500, some "Unable to fetch category", none⟩

/-! ## Helper lemmas -/

theorem storeGet_storeDel_self (s : CacheStore) (key : String) :
    storeGet (storeDel s key) key = none := by
  induction s with
  | nil => rfl
  | cons hd tl ih =>
      obtain ⟨k, e⟩ := hd
      by_cases hk : k = key
      · simp [storeDel, hk, ih]
      · simp [storeDel, storeGet, hk, ih]

theorem storeGet_storeSet_self (s : CacheStore) (key : String) (e : CacheEntry) :
    storeGet (storeSet s key e) key = some e := by
  simp [storeSet, storeGet]

theorem lookupScore_zincr_self (l : List (String × Rat)) (id : String) (d : Rat) :
    lookupScore (zincr l id d) id = lookupScore l id + d := by
  induction l with
  | nil => simp [zincr, lookupScore]
  | cons hd tl ih =>
      obtain ⟨k, v⟩ := hd
      by_cases hk : k = id
      · simp [zincr, lookupScore, hk]
      · simp [zincr, lookupScore, hk, ih]

theorem lookupScore_zincr_ne (l : List (String × Rat)) (id j : String) (d : Rat)
    (h : j ≠ id) : lookupScore (zincr l id d) j = lookupScore l j := by
  induction l with
  | nil => simp [zincr, lookupScore, Ne.symm h]
  | cons hd tl ih =>
      obtain ⟨k, v⟩ := hd
      by_cases hk : k = id
      · subst hk
        have hkj : k ≠ j := fun hj => h hj.symm
        simp [zincr, lookupScore, hkj]
      · simp only [zincr, if_neg hk]
        by_cases hkj : k = j
        · simp [lookupScore, hkj]
        · simp [lookupScore, hkj, ih]

theorem findSome?_append_first {α β : Type} (f : α → Option β)
    (pre : List α) (bad : α) (rest : List α) (q : β)
    (hpre : ∀ i ∈ pre, f i = none) (hbad : f bad = some q) :
    (pre ++ bad :: rest).findSome? f = some q := by
  induction pre with
  | nil => simp [List.findSome?_cons, hbad]
  | cons hd tl ih =>
      have hhd : f hd = none := hpre hd (by simp)
      have htl : ∀ i ∈ tl, f i = none := fun i hi => hpre i (by simp [hi])
      simp [List.findSome?_cons, hhd, ih htl]

/-! ## Claim theorems -/

/-- C1: for every cache key whose stored payload is non-empty but fails
to parse as JSON, `getCachedJson` returns absent (`none`) and deletes
that key as a side effect — it never raises a parse error to the caller
(it is a total function) — and afterwards the key no longer exists in
the store. -/
theorem getCachedJson_corrupt_self_heal {T : Type}
    (parse : String → Option (Option T)) (s : CacheStore) (key : String)
    (entry : CacheEntry)
    (hget : storeGet s key = some entry)
    (hne : entry.payload ≠ "")
    (hfail : parse entry.payload = none) :
    getCachedJson parse s key = ((none : Option T), storeDel s key) ∧
    storeGet (storeDel s key) key = none := by
  constructor
  · simp [getCachedJson, hget, hne, hfail]
  · exact storeGet_storeDel_self s key

/-- Witness for C1: a corrupt payload under a feed key is deleted and
read as absent. -/
theorem getCachedJson_corrupt_self_heal_witness :
    getCachedJson (T := Nat) (fun _ => none)
        [("feed:page1", ⟨"not-json", some 60⟩)] "feed:page1" =
      (none, storeDel [("feed:page1", ⟨"not-json", some 60⟩)] "feed:page1") ∧
    storeGet (storeDel [("feed:page1", (⟨"not-json", some 60⟩ : CacheEntry))]
        "feed:page1") "feed:page1" = none :=
  getCachedJson_corrupt_self_heal (fun _ => none)
    [("feed:page1", ⟨"not-json", some 60⟩)] "feed:page1" ⟨"not-json", some 60⟩
    (by decide) (by decide) rfl

/-- C5: `setCachedJson` stores the serialisation of the value with expiry
`ttlSeconds` when `ttlSeconds > 0`, and with no expiry when
`ttlSeconds ≤ 0`. -/
theorem setCachedJson_ttl_policy {T : Type} (stringify : Option T → String)
    (s : CacheStore) (key : String) (value : Option T) (ttlSeconds : Int) :
    storeGet (setCachedJson stringify s key value ttlSeconds) key =
      some ⟨stringify value, if ttlSeconds > 0 then some ttlSeconds else none⟩ := by
  by_cases h : ttlSeconds > 0 <;>
    simp [setCachedJson, h, storeGet_storeSet_self]

/-- C9: writing a value through `setCachedJson` and reading it back with
`getCachedJson` on the same key returns the value — so a stored JSON
`null` (`none`) reads back as absent, exactly what a missing key
returns, making the two indistinguishable at the adapter's interface. -/
theorem cache_roundtrip {T : Type} (parse : String → Option (Option T))
    (stringify : Option T → String) (s : CacheStore) (key : String)
    (value : Option T) (ttlSeconds : Int)
    (hinv : parse (stringify value) = some value)
    (hne : stringify value ≠ "") :
    (getCachedJson parse (setCachedJson stringify s key value ttlSeconds) key).1 =
      value ∧
    (getCachedJson parse (storeDel s key) key).1 = (none : Option T) := by
  constructor
  · by_cases h : ttlSeconds > 0 <;>
      simp [setCachedJson, getCachedJson, h, storeGet_storeSet_self, hne, hinv]
  · simp [getCachedJson, storeGet_storeDel_self]

/-- Witness for C9: storing JSON `null` under a key reads back as absent,
the same answer a store without the key gives. -/
theorem cache_roundtrip_witness :
    (getCachedJson demoParse
        (setCachedJson demoStringify [] "catalog:rating" none 0) "catalog:rating").1 =
      none ∧
    (getCachedJson demoParse (storeDel [] "catalog:rating") "catalog:rating").1 =
      (none : Option Nat) :=
  cache_roundtrip demoParse demoStringify [] "catalog:rating" none 0
    (by decide) (by decide)

/-- C10: `loadConfig` is memoized — a populated cache is returned as-is
regardless of the environment; a successful parse is cached and every
later call returns that same value even under a different environment or
parser; a parse failure throws the formatted error and caches nothing;
and `resetConfigCache` clears the cache. -/
theorem loadConfig_memoized {Env : Type}
    (sp sp₂ : List (String × String) → Except (List ZodIssue) Env)
    (env env₂ : List (String × String)) (c : Env) :
    loadConfig sp (some c) env = (Except.ok c, some c) ∧
    (∀ r st, loadConfig sp none env = (Except.ok r, st) →
        st = some r ∧ loadConfig sp₂ st env₂ = (Except.ok r, some r)) ∧
    (∀ issues, sp env = Except.error issues →
        loadConfig sp none env = (Except.error (formatConfigError issues), none)) ∧
    resetConfigCache (some c) = (none : Option Env) := by
  refine ⟨rfl, ?_, ?_, rfl⟩
  · intro r st h
    cases hsp : sp env with
    | ok parsed =>
        simp only [loadConfig, hsp, Prod.mk.injEq, Except.ok.injEq] at h
        obtain ⟨h1, h2⟩ := h
        subst h1
        subst h2
        exact ⟨rfl, rfl⟩
    | error issues => simp [loadConfig, hsp] at h
  · intro issues h
    simp [loadConfig, h]

/-- Witness for C10: a cached config is returned untouched, and a failing
parse surfaces the formatted error while leaving the cache empty. -/
theorem loadConfig_memoized_witness :
    loadConfig (fun _ => Except.ok (7 : Nat)) (some 7) [] = (Except.ok 7, some 7) ∧
    loadConfig (fun _ => Except.error [(⟨["DATABASE_URL"], "Required"⟩ : ZodIssue)])
        (none : Option Nat) [] =
      (Except.error (formatConfigError [⟨["DATABASE_URL"], "Required"⟩]), none) :=
  ⟨(loadConfig_memoized (fun _ => Except.ok 7) (fun _ => Except.ok 7) [] [] 7).1,
   (loadConfig_memoized (fun _ => Except.error [⟨["DATABASE_URL"], "Required"⟩])
      (fun _ => Except.ok 7) [] [] 7).2.2.1 [⟨["DATABASE_URL"], "Required"⟩] rfl⟩

/-- C4: `applyMetrics` performs no event deduplication — applying the
identical event twice to an initially-zero score yields exactly double
the score that applying it once yields. -/
theorem applyMetrics_double_without_dedup (s : TrendingState) (e : MetricsEvent)
    (h0 : scoreFor s e.contentId = 0) :
    scoreFor (applyMetrics s [e, e]) e.contentId =
      2 * scoreFor (applyMetrics s [e]) e.contentId := by
  simp only [scoreFor] at h0 ⊢
  simp only [applyMetrics, List.foldl, applyEvent]
  rw [lookupScore_zincr_self, lookupScore_zincr_self, h0]
  ring

/-- Witness for C4: replaying one concrete event doubles a fresh score. -/
theorem applyMetrics_double_without_dedup_witness :
    scoreFor (applyMetrics ⟨[], []⟩
        [⟨"content-1", 10, 2, 1, some 4⟩, ⟨"content-1", 10, 2, 1, some 4⟩])
      "content-1" =
      2 * scoreFor (applyMetrics ⟨[], []⟩ [⟨"content-1", 10, 2, 1, some 4⟩])
        "content-1" :=
  applyMetrics_double_without_dedup ⟨[], []⟩ ⟨"content-1", 10, 2, 1, some 4⟩ rfl

/-- C8: `applyMetrics` deltas for distinct content ids commute — applying
events for two different content ids in either order yields identical
final scores for both ids. -/
theorem applyMetrics_commute (s : TrendingState) (e₁ e₂ : MetricsEvent)
    (hne : e₁.contentId ≠ e₂.contentId) :
    scoreFor (applyMetrics s [e₁, e₂]) e₁.contentId =
      scoreFor (applyMetrics s [e₂, e₁]) e₁.contentId ∧
    scoreFor (applyMetrics s [e₁, e₂]) e₂.contentId =
      scoreFor (applyMetrics s [e₂, e₁]) e₂.contentId := by
  simp only [applyMetrics, List.foldl, scoreFor, applyEvent]
  constructor
  · rw [lookupScore_zincr_ne _ _ _ _ hne, lookupScore_zincr_self,
      lookupScore_zincr_self, lookupScore_zincr_ne _ _ _ _ hne]
  · rw [lookupScore_zincr_self, lookupScore_zincr_ne _ _ _ _ (Ne.symm hne),
      lookupScore_zincr_ne _ _ _ _ (Ne.symm hne), lookupScore_zincr_self]

/-- Witness for C8: two concrete events for distinct ids land on the same
final scores in either order. -/
theorem applyMetrics_commute_witness :
    scoreFor (applyMetrics ⟨[], []⟩ [⟨"a", 1, 0, 0, none⟩, ⟨"b", 0, 1, 0, none⟩])
        "a" =
      scoreFor (applyMetrics ⟨[], []⟩ [⟨"b", 0, 1, 0, none⟩, ⟨"a", 1, 0, 0, none⟩])
        "a" ∧
    scoreFor (applyMetrics ⟨[], []⟩ [⟨"a", 1, 0, 0, none⟩, ⟨"b", 0, 1, 0, none⟩])
        "b" =
      scoreFor (applyMetrics ⟨[], []⟩ [⟨"b", 0, 1, 0, none⟩, ⟨"a", 1, 0, 0, none⟩])
        "b" :=
  applyMetrics_commute ⟨[], []⟩ ⟨"a", 1, 0, 0, none⟩ ⟨"b", 0, 1, 0, none⟩
    (by decide)

/-- C2: whenever a data-quality violation is detected during a feed
query, `getFeed` raises a typed `CatalogConsistencyError` wrapping
exactly one `QualityIssue` — the issue of the first violating item,
fail-fast — and the route handler maps it to a 500 whose body surfaces
the issue kind. -/
theorem getFeed_quality_failure (knownSeries : List String)
    (pre : List FeedItem) (bad : FeedItem) (rest : List FeedItem)
    (nextCursor : Option String) (q : QualityIssue)
    (hpre : ∀ i ∈ pre, feedItemIssue knownSeries i = none)
    (hbad : feedItemIssue knownSeries bad = some q) :
    getFeed knownSeries (pre ++ bad :: rest) nextCursor = Except.error ⟨q⟩ ∧
    getFeedHandler (getFeed knownSeries (pre ++ bad :: rest) nextCursor) =
      ⟨500, some "Catalog data quality issue", some q.kind⟩ := by
  have hval : validateFeed knownSeries (pre ++ bad :: rest) = some q :=
    findSome?_append_first _ pre bad rest q hpre hbad
  refine ⟨?_, ?_⟩
  · simp [getFeed, hval]
  · simp [getFeed, hval, getFeedHandler]

/-- Witness for C2: a feed item whose series reference does not resolve
makes `getFeed` raise the missing-series issue, which the handler turns
into a 500 naming that kind. -/
theorem getFeed_quality_failure_witness :
    getFeed ["series-a"] [⟨"ep-9", some "series-missing", true, some "asset-1"⟩]
        none =
      Except.error ⟨⟨.missingSeriesRef, ⟨some "ep-9", some "series-missing"⟩⟩⟩ ∧
    getFeedHandler
        (getFeed ["series-a"]
          [⟨"ep-9", some "series-missing", true, some "asset-1"⟩] none) =
      ⟨500, some "Catalog data quality issue", some .missingSeriesRef⟩ :=
  getFeed_quality_failure ["series-a"] []
    ⟨"ep-9", some "series-missing", true, some "asset-1"⟩ [] none
    ⟨.missingSeriesRef, ⟨some "ep-9", some "series-missing"⟩⟩
    (by simp) (by decide)

/-- C6: for every slug that does not resolve to a series,
`getSeriesDetail` and `getRelatedSeries` return the explicit not-found
sentinel (`none`) rather than throwing, and the route layer maps that
sentinel to an HTTP 404. -/
theorem series_not_found_sentinel (catalog : List SeriesSummary)
    (slug : String) (limit : Nat)
    (h : ∀ s ∈ catalog, s.slug ≠ slug) :
    getSeriesDetail catalog slug = none ∧
    getRelatedSeries catalog slug limit = none ∧
    seriesDetailHandler (getSeriesDetail catalog slug) =
      ⟨404, some "Series not found", none⟩ ∧
    relatedSeriesHandler (getRelatedSeries catalog slug limit) =
      ⟨404, some "Series not found", none⟩ := by
  have hfind : catalog.find? (fun s => s.slug == slug) = none := by
    apply List.find?_eq_none.mpr
    intro s hs
    simp [h s hs]
  refine ⟨?_, ?_, ?_, ?_⟩ <;>
    simp [getSeriesDetail, getRelatedSeries, seriesDetailHandler,
      relatedSeriesHandler, hfind]

/-- Witness for C6: `getSeriesDetail` on "missing-slug" yields the
sentinel and a 404 reply. -/
theorem series_not_found_sentinel_witness :
    getSeriesDetail [⟨"show-a", "Show A"⟩] "missing-slug" = none ∧
    getRelatedSeries [⟨"show-a", "Show A"⟩] "missing-slug" 5 = none ∧
    seriesDetailHandler (getSeriesDetail [⟨"show-a", "Show A"⟩] "missing-slug") =
      ⟨404, some "Series not found", none⟩ ∧
    relatedSeriesHandler
        (getRelatedSeries [⟨"show-a", "Show A"⟩] "missing-slug" 5) =
      ⟨404, some "Series not found", none⟩ :=
  series_not_found_sentinel [⟨"show-a", "Show A"⟩] "missing-slug" 5 (by decide)

/-- C7 counterexample: `getCategoryById` failing with
`FAILED_PRECONDITION` is answered with a 500, not the 412 the claim
states — only the register-episode-asset handler maps that code to 412. -/
theorem getCategory_failed_precondition_counterexample :
    (getCategoryHandler
        (.catalogError ⟨.FAILED_PRECONDITION, "episode asset not finalized"⟩)).status =
      500 ∧
    (getCategoryHandler
        (.catalogError ⟨.FAILED_PRECONDITION, "episode asset not finalized"⟩)).status ≠
      412 := by
  decide

/-- C7 (amended): the register-episode-asset handler maps `NOT_FOUND` to
404 and `FAILED_PRECONDITION` to 412; the get-category handler maps
`NOT_FOUND` to 404 but any other failure — `FAILED_PRECONDITION`
included — to 500. -/
theorem internal_error_status_mapping (m : String) :
    registerEpisodeAssetHandler (.catalogError ⟨.NOT_FOUND, m⟩) =
      ⟨404, some m, none⟩ ∧
    registerEpisodeAssetHandler (.catalogError ⟨.FAILED_PRECONDITION, m⟩) =
      ⟨412, some m, none⟩ ∧
    getCategoryHandler (.catalogError ⟨.NOT_FOUND, m⟩) =
      ⟨404, some "Category not found", none⟩ ∧
    getCategoryHandler (.catalogError ⟨.FAILED_PRECONDITION, m⟩) =
      ⟨500, some "Unable to fetch category", none⟩ := by
  refine ⟨rfl, ?_, rfl, ?_⟩ <;> simp [registerEpisodeAssetHandler, getCategoryHandler]

theorem trendLE_trans (a b c : String × Rat) (hab : trendLE a b)
    (hbc : trendLE b c) : trendLE a c := by
  simp only [trendLE, Bool.or_eq_true, Bool.and_eq_true, decide_eq_true_eq]
    at hab hbc ⊢
  rcases hab with h1 | ⟨h1, h1l⟩ <;> rcases hbc with h2 | ⟨h2, h2l⟩
  · exact Or.inl (lt_trans h2 h1)
  · exact Or.inl (h2 ▸ h1)
  · refine Or.inl ?_
    rw [h1]
    exact h2
  · exact Or.inr ⟨h1.trans h2, le_trans h1l h2l⟩

theorem trendLE_total (a b : String × Rat) : trendLE a b || trendLE b a := by
  simp only [trendLE, Bool.or_eq_true, Bool.and_eq_true, decide_eq_true_eq]
  rcases lt_trichotomy a.2 b.2 with h | h | h
  · exact Or.inr (Or.inl h)
  · rcases le_total a.1 b.1 with hl | hl
    · exact Or.inl (Or.inr ⟨h, hl⟩)
    · exact Or.inr (Or.inr ⟨h.symm, hl⟩)
  · exact Or.inl (Or.inl h)

/-- C3: for every limit and every trending-store state (whose member ids
are distinct, as in a ranked set), `topTrendingEntries` is ordered by
score descending with any two equal-score entries ordered by content id
ascending, and `topTrending` is exactly the content ids of that ordered
view — a pure function of the store, hence deterministic across repeated
calls. -/
theorem topTrending_ordering (limit : Nat) (entries : List (String × Rat))
    (hkeys : entries.Pairwise (fun a b => a.1 ≠ b.1)) :
    (topTrendingEntries limit entries).Pairwise TrendRank ∧
    topTrending limit entries = (topTrendingEntries limit entries).map Prod.fst := by
  refine ⟨?_, rfl⟩
  have hsorted : (entries.mergeSort trendLE).Pairwise (fun a b => trendLE a b) :=
    List.sorted_mergeSort trendLE_trans trendLE_total entries
  have hperm : List.Perm (entries.mergeSort trendLE) entries :=
    List.mergeSort_perm entries trendLE
  have hne : (entries.mergeSort trendLE).Pairwise (fun a b => a.1 ≠ b.1) :=
    (List.Perm.pairwise_iff (fun h => Ne.symm h) hperm).mpr hkeys
  have hstrict : (entries.mergeSort trendLE).Pairwise TrendRank := by
    refine (hsorted.and hne).imp ?_
    intro a b hab
    obtain ⟨hle, hne'⟩ := hab
    simp only [trendLE, Bool.or_eq_true, Bool.and_eq_true, decide_eq_true_eq]
      at hle
    rcases hle with h | ⟨h, hl⟩
    · exact Or.inl h
    · exact Or.inr ⟨h, lt_of_le_of_ne hl hne'⟩
  exact List.Pairwise.sublist (List.take_sublist limit _) hstrict

/-- Witness for C3: a concrete store with a score tie between "b" and
"a" comes out ordered 5-scored first, then the tie by ascending id. -/
theorem topTrending_ordering_witness :
    ([(("b" : String), (3 : Rat)), ("a", 3), ("c", 5)].Pairwise
      (fun a b => a.1 ≠ b.1)) ∧
    ((topTrendingEntries 3 [("b", 3), ("a", 3), ("c", 5)]).Pairwise TrendRank ∧
     topTrending 3 [("b", 3), ("a", 3), ("c", 5)] =
       (topTrendingEntries 3 [("b", 3), ("a", 3), ("c", 5)]).map Prod.fst) :=
  ⟨by decide, topTrending_ordering 3 [("b", 3), ("a", 3), ("c", 5)] (by decide)⟩

end ContentService
